import Mathlib

/-!
Verification of the pagination layer of the Seiki backend.

Shallow embedding of `app/schemas/paginator.py` (class `Paginator`) and
`app/schemas/response.py` (`ApiResponse.paginate`).

Modelling conventions:
* An ORM entity is a record with an identity and an attribute dictionary
  (`attrs` models the instance `__dict__`, written by `setattr`; `rels`
  models class-level / relationship attributes that are reachable through
  `getattr` and visible in `dir(...)` but absent from `vars(...)`).
* The database session together with the caller's query is modelled by `Db`:
  the full ordered result set of the unpaginated query (`rows`) plus the
  result-column names (`keys`).  `SELECT COUNT(*) FROM (query)` returns
  `rows.length`; executing the query with `OFFSET o LIMIT l` returns
  `(rows.drop o).take l` — i.e. the store honours COUNT / OFFSET / LIMIT.
* Queries issued to the store are logged: the effectful functions return the
  ordered list of `StoreQuery` values they send.
* Python ints are `Int` at the API boundary (page numbers may be negative);
  values that the code guarantees non-negative are kept as `Nat`.
* `math.ceil(total / per_page)` is modelled as exact ceiling division
  (`(t + pp - 1) / pp` for `pp > 0`); float rounding is out of scope.
* Python exceptions (`APIException`) are modelled with `Except`.
-/

/-- A scalar or object value stored in an entity attribute or a result
column.  `obj` marks an ORM-mapped object (one that has `__table__`). -/
inductive EVal where
  | int : Int → EVal
  | str : String → EVal
  | obj : Nat → EVal
deriving DecidableEq

/-- An ORM entity: identity plus attribute dictionaries. -/
structure Entity where
  eid : Nat
  attrs : List (String × EVal)
  rels : List (String × EVal)
deriving DecidableEq

/-- Update a key in an association list, Python-dict style: overwrite the
first occurrence, append when absent. -/
def setKV : List (String × EVal) → String → EVal → List (String × EVal)
  | [], k, v => [(k, v)]
  | (k0, v0) :: rest, k, v =>
      if k0 = k then (k, v) :: rest else (k0, v0) :: setKV rest k v

/-- First-occurrence lookup in an association list. -/
def lookupKV : List (String × EVal) → String → Option EVal
  | [], _ => none
  | (k0, v0) :: rest, k => if k0 = k then some v0 else lookupKV rest k

/-- Python `setattr(e, k, v)`: writes the instance dictionary. -/
def Entity.setAttr (e : Entity) (k : String) (v : EVal) : Entity :=
  { e with attrs := setKV e.attrs k v }

/-- Python `getattr(e, k)`: the instance dictionary shadows class-level
attributes. -/
def Entity.getAttr (e : Entity) (k : String) : Option EVal :=
  match lookupKV e.attrs k with
  | some v => some v
  | none => lookupKV e.rels k

/-- One row of the executed query: the first result column (the main
entity) plus the remaining scalar columns. -/
structure SrcRow where
  main : Entity
  extras : List EVal
deriving DecidableEq

/-- The caller's query bound to a session: the full ordered result set and
the result-column names. -/
structure Db where
  rows : List SrcRow
  keys : List String
deriving DecidableEq

/-- A query sent to the store: the count query or the page query with its
offset and limit. -/
inductive StoreQuery where
  | countQ : StoreQuery
  | pageQ : Nat → Nat → StoreQuery
deriving DecidableEq

/-- The count query `await db.scalar(select(func.count()).select_from(query.subquery()))`. -/
def Db.countValue (db : Db) : Nat := db.rows.length

/-- Executing `query.offset(off).limit(lim)`. -/
def Db.execRows (db : Db) (off lim : Nat) : List SrcRow :=
  (db.rows.drop off).take lim

/-- Ceiling `ceil(t / pp)` for `pp > 0`, as computed (exactly) by the source's
`math.ceil(total / per_page)`. -/
def pyCeil (t pp : Nat) : Nat := (t + pp - 1) / pp

/-- State of a `Paginator` instance (`__init__` fields `_total`, `_per_page`,
`_page`, `_last_page`, `_processors`, `_items`; `query`/`db` as `db`). -/
structure Paginator where
  db : Db
  totalOpt : Option Nat
  perPageC : Nat
  pageC : Nat
  lastPageOpt : Option Nat
  processors : List (List Entity → List Entity)
  itemsOpt : Option (List Entity)

/-- Constructor `Paginator.__init__`. -/
def Paginator.init (db : Db) : Paginator :=
  { db := db, totalOpt := none, perPageC := 10, pageC := 1,
    lastPageOpt := none, processors := [], itemsOpt := none }

/-- The inner loop of `_process_multi_column_result`:
`for i in range(1, len(keys)): setattr(main_entity, keys[i], row[i])`.
(A row is assumed at least as long as `keys`; a shorter row would raise
`IndexError` in the source, and the theorems about this function carry the
corresponding well-formedness hypothesis.) -/
def attachExtras (e : Entity) : List String → List EVal → Entity
  | [], _ => e
  | _ :: _, [] => e
  | k :: ks, v :: vs => attachExtras (e.setAttr k v) ks vs

/-- Method `_process_multi_column_result` of `Paginator`: every row is a `Row`/tuple,
so the first column becomes the item and each further column value is
attached to it under the corresponding column alias, in row order. -/
def processMultiColumnResult (keys : List String) : List SrcRow → List Entity
  | [] => []
  | row :: rest =>
      attachExtras row.main (keys.drop 1) row.extras
        :: processMultiColumnResult keys rest

/-- The loop `for processor in self._processors: self._items = processor(self._items)`
(async processors are awaited in sequence, which a pure model renders the
same way as sync ones). -/
def applyProcessors (ps : List (List Entity → List Entity))
    (xs : List Entity) : List Entity :=
  ps.foldl (fun acc p => p acc) xs

/-- Method `Paginator.paginate(page, per_page)`.  Returns the updated instance and
the ordered list of queries issued to the store during the call. -/
def Paginator.paginate (p : Paginator) (page per_page : Int) :
    Paginator × List StoreQuery :=
  let pageC : Nat := (max 1 page).toNat
  let perPageC : Nat := (max 1 per_page).toNat
  let countStep : Nat × List StoreQuery :=
    match p.totalOpt with
    | some t => (t, [])
    | none => (p.db.countValue, [StoreQuery.countQ])
  let total := countStep.1
  let lastPage : Nat := if 0 < perPageC then pyCeil total perPageC else 0
  let off := (pageC - 1) * perPageC
  let lim := perPageC
  let rows := p.db.execRows off lim
  let fetched : List Entity :=
    if p.db.keys.length = 1 then rows.map (fun r => r.main)
    else processMultiColumnResult p.db.keys rows
  let items := applyProcessors p.processors fetched
  ({ p with pageC := pageC, perPageC := perPageC, totalOpt := some total,
            lastPageOpt := some lastPage, itemsOpt := some items },
   countStep.2 ++ [StoreQuery.pageQ off lim])

/-- Property `Paginator.items`: `self._items or []`. -/
def Paginator.items (p : Paginator) : List Entity := p.itemsOpt.getD []

/-- Property `Paginator.total`: `self._total or 0`. -/
def Paginator.total (p : Paginator) : Nat := p.totalOpt.getD 0

/-- Property `Paginator.per_page`. -/
def Paginator.per_page (p : Paginator) : Nat := p.perPageC

/-- Property `Paginator.current_page`. -/
def Paginator.current_page (p : Paginator) : Nat := p.pageC

/-- Property `Paginator.last_page`: `self._last_page or 0`. -/
def Paginator.last_page (p : Paginator) : Nat := p.lastPageOpt.getD 0

/-- Property `Paginator.has_more`: `self._page < (self._last_page or 0)`. -/
def Paginator.has_more (p : Paginator) : Bool :=
  decide (p.pageC < p.last_page)

/-- The six-field page envelope (`to_dict` / `PaginatedData`). -/
structure Envelope where
  items : List Entity
  total : Nat
  per_page : Nat
  current_page : Nat
  last_page : Nat
  has_more : Bool
deriving DecidableEq

/-- Method `Paginator.to_dict`. -/
def Paginator.to_dict (p : Paginator) : Envelope :=
  { items := p.items, total := p.total, per_page := p.per_page,
    current_page := p.current_page, last_page := p.last_page,
    has_more := p.has_more }

/-- Method `Paginator.process(callback)`: appends to `self._processors`. -/
def Paginator.process (p : Paginator) (f : List Entity → List Entity) :
    Paginator :=
  { p with processors := p.processors ++ [f] }

/-- An `APIException(status_code, message)`. -/
structure ApiErr where
  status_code : Nat
  message : String
deriving DecidableEq

/-- Function `ApiResponse.paginate(db, query, page, per_page, transform_func, ...)`.
Returns the envelope (or the raised `APIException`) together with the
ordered list of queries issued to the store. -/
def ApiResponse.paginate (db : Db) (page per_page : Int)
    (transform : Option (List Entity → List Entity)) :
    Except ApiErr Envelope × List StoreQuery :=
  if page < 1 ∨ per_page < 1 then
    (Except.error { status_code := 400,
                    message := "Invalid page or per_page parameter" }, [])
  else
    let total := db.countValue
    let lastPage : Nat := if 0 < per_page then pyCeil total per_page.toNat else 0
    if (lastPage : Int) < page ∧ 0 < lastPage then
      (Except.error { status_code := 404, message := "Page not found" },
       [StoreQuery.countQ])
    else
      let off := (page.toNat - 1) * per_page.toNat
      let lim := per_page.toNat
      let items0 := (db.execRows off lim).map (fun r => r.main)
      let items := match transform with
        | some f => f items0
        | none => items0
      (Except.ok { items := items, total := total, per_page := per_page.toNat,
                   current_page := page.toNat, last_page := lastPage,
                   has_more := decide ((page : Int) < (lastPage : Int)) },
       [StoreQuery.countQ, StoreQuery.pageQ off lim])

/-- A Pydantic response-model class, as `Paginator.map` uses it: the keys of
`__annotations__`, `model_validate` (which may raise, modelled by `none`)
and the never-failing `model_construct`. -/
structure PyModel (M : Type) where
  annots : List String
  model_validate : List (String × EVal) → Option M
  model_construct : List (String × EVal) → M

/-- Python `hasattr(v, "__table__")`: whether the value is an ORM-mapped object. -/
def EVal.isObj : EVal → Bool
  | .obj _ => true
  | _ => false

/-- Python `dir(item)`: every attribute name reachable on the object. -/
def dirNames (e : Entity) : List String :=
  e.attrs.map (fun kv => kv.1) ++ e.rels.map (fun kv => kv.1)

/-- The `item_dict` built by the mapper inside `Paginator.map`: first all
non-underscore keys of `vars(item)`, then a probe of every `dir(item)` name
not already present, keeping it when the value is ORM-mapped or the name is
a declared model field. -/
def buildItemDict {M : Type} (model : PyModel M) (item : Entity) :
    List (String × EVal) :=
  (dirNames item).foldl
    (fun d name =>
      if name.startsWith "_" || d.any (fun kv => kv.1 = name) then d
      else
        match item.getAttr name with
        | some v =>
            if v.isObj || name ∈ model.annots then d ++ [(name, v)] else d
        | none => d)
    (item.attrs.filter (fun kv => !kv.1.startsWith "_"))

/-- Per-item step of the mapper: `model_validate`, falling back to
`model_construct` when validation raises. -/
def mapRow {M : Type} (model : PyModel M) (item : Entity) : M :=
  match model.model_validate (buildItemDict model item) with
  | some m => m
  | none => model.model_construct (buildItemDict model item)

/-- The `mapper` closure of `Paginator.map`: loop over the items, appending
each mapped item to the output list. -/
def mapMapper {M : Type} (model : PyModel M) (items : List Entity) : List M :=
  items.foldl (fun acc item => acc ++ [mapRow model item]) []

/-! ### Helper lemmas -/

lemma pyCeil_eq_ceilDiv (t pp : Nat) : pyCeil t pp = t ⌈/⌉ pp := rfl

lemma le_mul_pyCeil (t pp : Nat) (h : 0 < pp) : t ≤ pp * pyCeil t pp := by
  rw [pyCeil_eq_ceilDiv]
  simpa [smul_eq_mul] using le_smul_ceilDiv (a := pp) (b := t) h

lemma pyCeil_le_of_le_mul {t pp m : Nat} (h : 0 < pp) (hm : t ≤ pp * m) :
    pyCeil t pp ≤ m := by
  rw [pyCeil_eq_ceilDiv]
  exact (ceilDiv_le_iff_le_mul h).2 hm

lemma pyCeil_eq_zero_iff {t pp : Nat} (h : 0 < pp) : pyCeil t pp = 0 ↔ t = 0 := by
  constructor
  · intro h0
    have hle := le_mul_pyCeil t pp h
    rw [h0] at hle
    simpa using hle
  · intro h0
    subst h0
    rw [pyCeil_eq_ceilDiv]
    simp

lemma mul_pred_lt_of_pyCeil {t pp : Nat} (h : 0 < pp) (hc : 0 < pyCeil t pp) :
    pp * (pyCeil t pp - 1) < t := by
  by_contra hle
  push_neg at hle
  have := pyCeil_le_of_le_mul h hle
  omega

lemma execRows_length (db : Db) (off lim : Nat) :
    (db.execRows off lim).length = min lim (db.rows.length - off) := by
  simp [Db.execRows]

lemma processMultiColumnResult_length (keys : List String) (rows : List SrcRow) :
    (processMultiColumnResult keys rows).length = rows.length := by
  induction rows with
  | nil => rfl
  | cons r rest ih => simp [processMultiColumnResult, ih]

lemma clampNat_pos (x : Int) : 0 < (max 1 x).toNat := by
  have h := le_max_left 1 x
  omega

/-- Unfolded form of `Paginator.paginate`: the updated state and the query
log, for an arbitrary starting state. -/
lemma paginate_eq (p : Paginator) (page pp : Int) :
    p.paginate page pp =
      ({ p with
          pageC := (max 1 page).toNat,
          perPageC := (max 1 pp).toNat,
          totalOpt := some (p.totalOpt.getD p.db.countValue),
          lastPageOpt := some (pyCeil (p.totalOpt.getD p.db.countValue)
            (max 1 pp).toNat),
          itemsOpt := some (applyProcessors p.processors
            (if p.db.keys.length = 1 then
               (p.db.execRows (((max 1 page).toNat - 1) * (max 1 pp).toNat)
                   (max 1 pp).toNat).map (fun r => r.main)
             else
               processMultiColumnResult p.db.keys
                 (p.db.execRows (((max 1 page).toNat - 1) * (max 1 pp).toNat)
                   (max 1 pp).toNat))) },
       (if p.totalOpt.isSome then [] else [StoreQuery.countQ])
         ++ [StoreQuery.pageQ (((max 1 page).toNat - 1) * (max 1 pp).toNat)
               (max 1 pp).toNat]) := by
  cases h : p.totalOpt with
  | none => simp [Paginator.paginate, h, clampNat_pos]
  | some t => simp [Paginator.paginate, h, clampNat_pos]

/-- The invariants the spec demands of every page envelope: `last_page` is
the ceiling of `total / per_page` (hence `0` exactly when `total = 0`),
`has_more` says whether the current page is before the last one, and the
page holds at most `per_page` items. -/
def envelopeInvariants (env : Envelope) : Prop :=
  env.last_page = env.total ⌈/⌉ env.per_page
    ∧ (env.last_page = 0 ↔ env.total = 0)
    ∧ env.has_more = decide (env.current_page < env.last_page)
    ∧ env.items.length ≤ env.per_page

section SanityChecks

/-- A tiny concrete entity used in sanity checks and witnesses. -/
def entN (n : Nat) : Entity := { eid := n, attrs := [], rels := [] }

/-- A single-column data set of `n` entities. -/
def dbN (n : Nat) : Db :=
  { rows := (List.range n).map (fun i => { main := entN i, extras := [] }),
    keys := ["e"] }

example : ((Paginator.init (dbN 25)).paginate 1 10).1.to_dict.last_page = 3 := by
  decide

example : ((Paginator.init (dbN 25)).paginate 1 10).1.to_dict.has_more = true := by
  decide

example : ((Paginator.init (dbN 25)).paginate 3 10).1.items.length = 5 := by
  decide

example : ((Paginator.init (dbN 25)).paginate 4 10).1.items = [] := by
  decide

example : ((Paginator.init (dbN 0)).paginate 1 10).1.to_dict.last_page = 0 := by
  decide

example :
    (ApiResponse.paginate (dbN 25) 4 10 none).1 =
      Except.error { status_code := 404, message := "Page not found" } := rfl

example :
    (ApiResponse.paginate (dbN 25) 0 10 none).1 =
      Except.error { status_code := 400,
                     message := "Invalid page or per_page parameter" } := rfl

end SanityChecks

/-! ### Attribute-attachment lemmas (for the multi-column path) -/

lemma lookupKV_setKV_self (l : List (String × EVal)) (k : String) (v : EVal) :
    lookupKV (setKV l k v) k = some v := by
  induction l with
  | nil => simp [setKV, lookupKV]
  | cons kv rest ih =>
      obtain ⟨k0, v0⟩ := kv
      by_cases h : k0 = k
      · simp [setKV, h, lookupKV]
      · simp [setKV, h, lookupKV, ih]

lemma lookupKV_setKV_ne (l : List (String × EVal)) (k k' : String) (v : EVal)
    (h : k ≠ k') : lookupKV (setKV l k v) k' = lookupKV l k' := by
  induction l with
  | nil => simp [setKV, lookupKV, h]
  | cons kv rest ih =>
      obtain ⟨k0, v0⟩ := kv
      by_cases h0 : k0 = k
      · subst h0
        simp [setKV, lookupKV, h]
      · simp [setKV, h0, lookupKV, ih]

lemma getAttr_setAttr_self (e : Entity) (k : String) (v : EVal) :
    (e.setAttr k v).getAttr k = some v := by
  simp [Entity.setAttr, Entity.getAttr, lookupKV_setKV_self]

lemma getAttr_setAttr_ne (e : Entity) (k k' : String) (v : EVal) (h : k ≠ k') :
    (e.setAttr k v).getAttr k' = e.getAttr k' := by
  simp [Entity.setAttr, Entity.getAttr, lookupKV_setKV_ne _ _ _ _ h]

lemma attachExtras_eid (ks : List String) (vs : List EVal) (e : Entity) :
    (attachExtras e ks vs).eid = e.eid := by
  induction ks generalizing e vs with
  | nil => rfl
  | cons k ks ih =>
      cases vs with
      | nil => rfl
      | cons v vs => simpa [attachExtras] using ih vs (e.setAttr k v)

lemma attachExtras_getAttr_not_mem (ks : List String) (vs : List EVal)
    (e : Entity) (k : String) (h : k ∉ ks) :
    (attachExtras e ks vs).getAttr k = e.getAttr k := by
  induction ks generalizing e vs with
  | nil => rfl
  | cons k0 ks ih =>
      cases vs with
      | nil => rfl
      | cons v vs =>
          have hne : k0 ≠ k := fun hc => h (hc ▸ List.mem_cons_self k0 ks)
          have hk : k ∉ ks := fun hc => h (List.mem_cons_of_mem k0 hc)
          rw [attachExtras, ih vs _ hk, getAttr_setAttr_ne _ _ _ _ hne]

lemma attachExtras_getAttr (ks : List String) (vs : List EVal) (e : Entity)
    (hnd : ks.Nodup) (hlen : vs.length ≤ ks.length) (j : Nat) (v : EVal)
    (hv : vs[j]? = some v) :
    ∃ k, ks[j]? = some k ∧ (attachExtras e ks vs).getAttr k = some v := by
  induction ks generalizing e vs j with
  | nil =>
      have : vs = [] := List.length_eq_zero.mp (Nat.le_zero.mp hlen)
      subst this
      simp at hv
  | cons k0 ks ih =>
      cases vs with
      | nil => simp at hv
      | cons v0 vs =>
          obtain ⟨hk0, hks⟩ := List.nodup_cons.mp hnd
          have hlen' : vs.length ≤ ks.length := by
            simpa using Nat.succ_le_succ_iff.mp (by simpa using hlen)
          cases j with
          | zero =>
              refine ⟨k0, by simp, ?_⟩
              obtain rfl : v0 = v := by simpa using hv
              rw [attachExtras, attachExtras_getAttr_not_mem _ _ _ _ hk0,
                getAttr_setAttr_self]
          | succ j =>
              have hv' : vs[j]? = some v := by simpa using hv
              obtain ⟨k, hk, hget⟩ := ih vs (e.setAttr k0 v0) hks hlen' j hv'
              exact ⟨k, by simpa using hk, by rw [attachExtras]; exact hget⟩

lemma processMultiColumnResult_getElem (keys : List String)
    (rows : List SrcRow) (i : Nat) :
    (processMultiColumnResult keys rows)[i]? =
      (rows[i]?).map (fun r => attachExtras r.main (keys.drop 1) r.extras) := by
  induction rows generalizing i with
  | nil => simp [processMultiColumnResult]
  | cons r rest ih =>
      cases i with
      | zero => simp [processMultiColumnResult]
      | succ i => simpa [processMultiColumnResult] using ih i

/-! ### Claim C1 -/

/-- C1: every page envelope produced by `Paginator.paginate` (read through
the properties / `to_dict`) and every envelope returned successfully by
`ApiResponse.paginate` satisfies `last_page = ceil(total / per_page)`
(zero exactly when `total = 0`), `has_more = (current_page < last_page)`,
and `items.length ≤ per_page`. -/
theorem c1_envelope_invariants (db : Db) (page pp : Int) :
    envelopeInvariants (((Paginator.init db).paginate page pp).1.to_dict)
    ∧ (∀ env qs, ApiResponse.paginate db page pp none = (Except.ok env, qs) →
        envelopeInvariants env) := by
  constructor
  · rw [paginate_eq]
    unfold envelopeInvariants
    simp only [Paginator.to_dict, Paginator.items, Paginator.total,
      Paginator.per_page, Paginator.current_page, Paginator.last_page,
      Paginator.has_more, Paginator.init, applyProcessors, List.foldl_nil,
      Option.getD_some, Db.countValue]
    refine ⟨pyCeil_eq_ceilDiv _ _, pyCeil_eq_zero_iff (clampNat_pos pp),
      by simp, ?_⟩
    by_cases hk : db.keys.length = 1
    · simp only [hk, if_pos, List.length_map, execRows_length]
      omega
    · rw [if_neg hk, processMultiColumnResult_length, execRows_length]
      omega
  · intro env qs h
    simp only [ApiResponse.paginate, Db.countValue] at h
    split_ifs at h with hinv hpp hrange hrange0
    · simp at h
    · simp at h
    · simp only [Prod.mk.injEq, Except.ok.injEq] at h
      obtain ⟨henv, -⟩ := h
      subst henv
      unfold envelopeInvariants
      dsimp only
      refine ⟨pyCeil_eq_ceilDiv _ _, pyCeil_eq_zero_iff (by omega), ?_, ?_⟩
      · exact decide_eq_decide.mpr (by omega)
      · simp only [List.length_map, execRows_length]
        omega
    · exact absurd hrange0 (by omega)
    · exact absurd hpp (by omega)

/-- The concrete envelope for the first page of a 25-row single-column data
set with 10 rows per page. -/
def envFirstOf25 : Envelope :=
  { items := (List.range 10).map entN, total := 25, per_page := 10,
    current_page := 1, last_page := 3, has_more := true }

/-- Witness for `c1_envelope_invariants`: a 25-row single-column data set,
page 1, 10 per page; the hypothesis of the second conjunct is discharged on
the concrete envelope. -/
theorem c1_envelope_invariants_witness :
    ApiResponse.paginate (dbN 25) 1 10 none =
      (Except.ok envFirstOf25, [StoreQuery.countQ, StoreQuery.pageQ 0 10])
    ∧ envelopeInvariants envFirstOf25 :=
  ⟨rfl, (c1_envelope_invariants (dbN 25) 1 10).2 _ _ rfl⟩

/-! ### Claim C2 -/

/-- C2: when a query reports more than one result column, every row's first
column becomes the item (same entity identity, row order and count
preserved) and each additional column value is attached to it as an
attribute named by the corresponding column alias.  (Single-column results
take the `scalars()` branch instead; see `Paginator.paginate`.)  Rows are
assumed as wide as the column list — a narrower row would raise
`IndexError` in the source — and the aliases are assumed distinct. -/
theorem c2_multi_column_rows (keys : List String) (rows : List SrcRow)
    (hwf : ∀ r ∈ rows, r.extras.length + 1 = keys.length)
    (hnd : keys.Nodup) :
    (processMultiColumnResult keys rows).length = rows.length
    ∧ ∀ (i : Nat) (r : SrcRow), rows[i]? = some r →
        ∃ e : Entity, (processMultiColumnResult keys rows)[i]? = some e
          ∧ e.eid = r.main.eid
          ∧ ∀ (j : Nat) (v : EVal), r.extras[j]? = some v →
              ∃ k : String, keys[j + 1]? = some k ∧ e.getAttr k = some v := by
  refine ⟨processMultiColumnResult_length keys rows, ?_⟩
  intro i r hr
  refine ⟨attachExtras r.main (keys.drop 1) r.extras, ?_, attachExtras_eid _ _ _, ?_⟩
  · rw [processMultiColumnResult_getElem, hr]
    rfl
  · intro j v hv
    have hmem : r ∈ rows := by
      have := List.getElem?_eq_some_iff.mp hr
      obtain ⟨hlt, heq⟩ := this
      exact heq ▸ List.getElem_mem hlt
    have hlen : r.extras.length ≤ (keys.drop 1).length := by
      have := hwf r hmem
      simp only [List.length_drop]
      omega
    have hnd' : (keys.drop 1).Nodup := (List.drop_sublist 1 keys).nodup hnd
    obtain ⟨k, hk, hget⟩ :=
      attachExtras_getAttr (keys.drop 1) r.extras r.main hnd' hlen j v hv
    refine ⟨k, ?_, hget⟩
    rw [← hk, List.getElem?_drop]
    congr 1
    omega

/-- The column aliases of the two-column query used to witness C2. -/
def keysC2 : List String := ["c", "bcount"]

/-- Two composite rows: each main entity is paired with one extra scalar. -/
def rowsC2 : List SrcRow :=
  [{ main := entN 1, extras := [EVal.int 7] },
   { main := entN 2, extras := [EVal.int 9] }]

/-- Witness for `c2_multi_column_rows`: both hypotheses are checked on the
concrete two-column, two-row result, and the theorem is applied to it. -/
theorem c2_multi_column_rows_witness :
    (∀ r ∈ rowsC2, r.extras.length + 1 = keysC2.length)
    ∧ keysC2.Nodup
    ∧ ((processMultiColumnResult keysC2 rowsC2).length = rowsC2.length
       ∧ ∀ (i : Nat) (r : SrcRow), rowsC2[i]? = some r →
          ∃ e : Entity, (processMultiColumnResult keysC2 rowsC2)[i]? = some e
            ∧ e.eid = r.main.eid
            ∧ ∀ (j : Nat) (v : EVal), r.extras[j]? = some v →
                ∃ k : String, keysC2[j + 1]? = some k ∧ e.getAttr k = some v) :=
  ⟨by decide, by decide,
   c2_multi_column_rows keysC2 rowsC2 (by decide) (by decide)⟩

/-! ### Claim C3 -/

/-- C3: for a page beyond a positive last page, `Paginator.paginate`
raises nothing (its translation is total — the source path has no raise)
and the envelope's item list is empty, while `ApiResponse.paginate` under
the same condition raises `APIException(404, "Page not found")` having
issued only the count query — the page query is never executed. -/
theorem c3_out_of_range_page (db : Db) (page pp : Int) (hpp : 1 ≤ pp)
    (hlast : 0 < pyCeil db.rows.length pp.toNat)
    (hpage : (pyCeil db.rows.length pp.toNat : Int) < page) :
    ((Paginator.init db).paginate page pp).1.items = []
    ∧ ApiResponse.paginate db page pp none =
        (Except.error { status_code := 404, message := "Page not found" },
         [StoreQuery.countQ]) := by
  have hppN : (max 1 pp).toNat = pp.toNat := by
    rw [max_eq_right hpp]
  have hpage1 : 1 ≤ page := by omega
  have hpgN : (max 1 page).toNat = page.toNat := by
    rw [max_eq_right hpage1]
  constructor
  · rw [paginate_eq]
    simp only [Paginator.items, Option.getD_some, Paginator.init, hppN, hpgN]
    have hle := le_mul_pyCeil db.rows.length pp.toNat (by omega)
    have hstep : pyCeil db.rows.length pp.toNat * pp.toNat ≤
        (page.toNat - 1) * pp.toNat :=
      Nat.mul_le_mul_right _ (by omega)
    have hoff : db.rows.length ≤ (page.toNat - 1) * pp.toNat := by
      calc db.rows.length ≤ pp.toNat * pyCeil db.rows.length pp.toNat := hle
        _ = pyCeil db.rows.length pp.toNat * pp.toNat := Nat.mul_comm _ _
        _ ≤ (page.toNat - 1) * pp.toNat := hstep
    have hdrop : db.rows.drop ((page.toNat - 1) * pp.toNat) = [] :=
      List.drop_eq_nil_of_le hoff
    by_cases hk : db.keys.length = 1 <;>
      simp [hk, Db.execRows, hdrop, applyProcessors, processMultiColumnResult]
  · simp only [ApiResponse.paginate, Db.countValue]
    rw [if_neg (show ¬(page < 1 ∨ pp < 1) by omega),
      if_pos (show (0:Int) < pp by omega),
      if_pos (show (pyCeil db.rows.length pp.toNat : Int) < page
          ∧ 0 < pyCeil db.rows.length pp.toNat from ⟨hpage, hlast⟩)]

/-- Witness for `c3_out_of_range_page`: 25 rows, 10 per page, page 4. -/
theorem c3_out_of_range_page_witness :
    ((1:Int) ≤ 10 ∧ 0 < pyCeil (dbN 25).rows.length (10:Int).toNat
      ∧ ((pyCeil (dbN 25).rows.length (10:Int).toNat : Int) < 4))
    ∧ (((Paginator.init (dbN 25)).paginate 4 10).1.items = []
       ∧ ApiResponse.paginate (dbN 25) 4 10 none =
           (Except.error { status_code := 404, message := "Page not found" },
            [StoreQuery.countQ])) :=
  ⟨⟨by decide, by decide, by decide⟩,
   c3_out_of_range_page (dbN 25) 4 10 (by decide) (by decide) (by decide)⟩

/-! ### Claim C4 -/

/-- Counterexample to C4: the claim says both implementations recover from
`page < 1` by clamping and never surface an error, but on `page = 0`
`ApiResponse.paginate` surfaces `APIException(400, "Invalid page or
per_page parameter")` — it does not clamp. -/
theorem c4_clamping_counterexample :
    ApiResponse.paginate (dbN 25) 0 10 none =
      (Except.error { status_code := 400,
                      message := "Invalid page or per_page parameter" },
       []) := rfl

/-- C4 as amended: only the class-based `Paginator` clamps `page` and
`per_page` to a minimum of 1 and always succeeds; `ApiResponse.paginate`
instead raises `APIException(400, ...)` whenever `page < 1` or
`per_page < 1`, before issuing any query. -/
theorem c4_clamping_amended (db : Db) (page pp : Int)
    (h : page < 1 ∨ pp < 1) :
    ((page < 1 → ((Paginator.init db).paginate page pp).1.current_page = 1)
      ∧ (pp < 1 → ((Paginator.init db).paginate page pp).1.per_page = 1))
    ∧ ApiResponse.paginate db page pp none =
        (Except.error { status_code := 400,
                        message := "Invalid page or per_page parameter" },
         []) := by
  refine ⟨⟨?_, ?_⟩, ?_⟩
  · intro hp
    rw [paginate_eq]
    show (max 1 page).toNat = 1
    rw [max_eq_left (by omega)]
    rfl
  · intro hp
    rw [paginate_eq]
    show (max 1 pp).toNat = 1
    rw [max_eq_left (by omega)]
    rfl
  · simp only [ApiResponse.paginate]
    rw [if_pos h]

/-- Witness for `c4_clamping_amended` at `page = 0`, `per_page = 10`. -/
theorem c4_clamping_amended_witness :
    ((0:Int) < 1 ∨ (10:Int) < 1)
    ∧ ((((0:Int) < 1 →
          ((Paginator.init (dbN 25)).paginate 0 10).1.current_page = 1)
        ∧ ((10:Int) < 1 →
          ((Paginator.init (dbN 25)).paginate 0 10).1.per_page = 1))
      ∧ ApiResponse.paginate (dbN 25) 0 10 none =
          (Except.error { status_code := 400,
                          message := "Invalid page or per_page parameter" },
           [])) :=
  ⟨Or.inl (by decide), c4_clamping_amended (dbN 25) 0 10 (Or.inl (by decide))⟩

/-! ### Claim C5 -/

/-- C5: the total is computed by the first `paginate()` call and cached on
the instance.  Any later `paginate()` call on the same instance — same or
different page and page size — issues no count query and keeps the
original total, and repeating the call with identical arguments over the
unchanged data set yields an identical envelope. -/
theorem c5_total_cached_idempotent (db : Db) (page pp page2 pp2 : Int) :
    (StoreQuery.countQ ∉
        ((((Paginator.init db).paginate page pp).1).paginate page2 pp2).2
      ∧ ((((Paginator.init db).paginate page pp).1).paginate page2 pp2).1.totalOpt
          = some db.countValue)
    ∧ ((((Paginator.init db).paginate page pp).1).paginate page pp).1.to_dict
        = (((Paginator.init db).paginate page pp).1).to_dict := by
  simp [paginate_eq, Paginator.init, Paginator.to_dict, Paginator.items,
    Paginator.total, Paginator.per_page, Paginator.current_page,
    Paginator.last_page, Paginator.has_more, Db.countValue, applyProcessors]

lemma page_slice_length (t ppN pg : Nat) (hpp : 0 < ppN) (hpg : 1 ≤ pg) :
    (pg < pyCeil t ppN → min ppN (t - (pg - 1) * ppN) = ppN)
    ∧ (pg = pyCeil t ppN →
        min ppN (t - (pg - 1) * ppN) = t - (pg - 1) * ppN) := by
  constructor
  · intro hlt
    have h1 : pg ≤ pyCeil t ppN - 1 := by omega
    have h2 : pg * ppN ≤ (pyCeil t ppN - 1) * ppN := Nat.mul_le_mul_right _ h1
    have h3 : ppN * (pyCeil t ppN - 1) < t := mul_pred_lt_of_pyCeil hpp (by omega)
    have h4 : pg * ppN < t := by
      calc pg * ppN ≤ (pyCeil t ppN - 1) * ppN := h2
        _ = ppN * (pyCeil t ppN - 1) := Nat.mul_comm _ _
        _ < t := h3
    have hpg' : pg - 1 + 1 = pg := by omega
    have h5 : pg * ppN = (pg - 1) * ppN + ppN := by
      calc pg * ppN = (pg - 1 + 1) * ppN := by rw [hpg']
        _ = (pg - 1) * ppN + ppN := Nat.succ_mul _ _
    omega
  · intro heq
    have h1 : t ≤ pg * ppN := by
      calc t ≤ ppN * pyCeil t ppN := le_mul_pyCeil t ppN hpp
        _ = pyCeil t ppN * ppN := Nat.mul_comm _ _
        _ = pg * ppN := by rw [heq]
    have hpg' : pg - 1 + 1 = pg := by omega
    have h5 : pg * ppN = (pg - 1) * ppN + ppN := by
      calc pg * ppN = (pg - 1 + 1) * ppN := by rw [hpg']
        _ = (pg - 1) * ppN + ppN := Nat.succ_mul _ _
    omega

lemma fetched_length (db : Db) (off lim : Nat) :
    (if db.keys.length = 1 then (db.execRows off lim).map (fun r => r.main)
     else processMultiColumnResult db.keys (db.execRows off lim)).length
      = min lim (db.rows.length - off) := by
  by_cases hk : db.keys.length = 1 <;>
    simp [hk, execRows_length, processMultiColumnResult_length]

/-! ### Claim C6 -/

/-- C6: for every valid page in `[1, last_page]` — the store honouring
`OFFSET (page-1)*per_page LIMIT per_page` over the data set — the page
holds exactly `per_page` items, except possibly the final page, which
holds `total - (page-1)*per_page` items; in both implementations. -/
theorem c6_page_item_counts (db : Db) (page pp : Int) (hpage : 1 ≤ page)
    (hpp : 1 ≤ pp)
    (_hle : page ≤ (pyCeil db.rows.length pp.toNat : Int)) :
    ((page < (pyCeil db.rows.length pp.toNat : Int) →
        ((Paginator.init db).paginate page pp).1.items.length = pp.toNat)
      ∧ (page = (pyCeil db.rows.length pp.toNat : Int) →
        ((Paginator.init db).paginate page pp).1.items.length
          = db.rows.length - (page.toNat - 1) * pp.toNat))
    ∧ ∀ env qs, ApiResponse.paginate db page pp none = (Except.ok env, qs) →
        (page < (pyCeil db.rows.length pp.toNat : Int) →
            env.items.length = pp.toNat)
          ∧ (page = (pyCeil db.rows.length pp.toNat : Int) →
            env.items.length = db.rows.length - (page.toNat - 1) * pp.toNat) := by
  have hppN : (max 1 pp).toNat = pp.toNat := by rw [max_eq_right hpp]
  have hpgN : (max 1 page).toNat = page.toNat := by rw [max_eq_right hpage]
  have hkey := page_slice_length db.rows.length pp.toNat page.toNat
    (by omega) (by omega)
  constructor
  · have hlen : ((Paginator.init db).paginate page pp).1.items.length
        = min pp.toNat (db.rows.length - (page.toNat - 1) * pp.toNat) := by
      rw [paginate_eq]
      simp only [Paginator.items, Option.getD_some, Paginator.init,
        applyProcessors, List.foldl_nil, hppN, hpgN]
      exact fetched_length db _ _
    constructor
    · intro hlt
      rw [hlen]
      exact hkey.1 (by omega)
    · intro heq
      rw [hlen]
      exact hkey.2 (by omega)
  · intro env qs h
    simp only [ApiResponse.paginate, Db.countValue] at h
    split_ifs at h with hinv hppc hrange hrange0
    · simp at h
    · simp at h
    · simp only [Prod.mk.injEq, Except.ok.injEq] at h
      obtain ⟨henv, -⟩ := h
      subst henv
      have hlen : (List.map (fun r => r.main)
          (db.execRows ((page.toNat - 1) * pp.toNat) pp.toNat)).length
          = min pp.toNat (db.rows.length - (page.toNat - 1) * pp.toNat) := by
        simp [execRows_length]
      constructor
      · intro hlt
        dsimp only
        rw [hlen]
        exact hkey.1 (by omega)
      · intro heq
        dsimp only
        rw [hlen]
        exact hkey.2 (by omega)
    · exact absurd hrange0 (by omega)
    · exact absurd hppc (by omega)

/-- The envelope of the final page of 25 single-column rows, 10 per page. -/
def envLastOf25 : Envelope :=
  { items := (List.range 5).map (fun i => entN (i + 20)), total := 25,
    per_page := 10, current_page := 3, last_page := 3, has_more := false }

/-- Witness for `c6_page_item_counts`: 25 rows, 10 per page, final page 3,
with the `ApiResponse` hypothesis discharged on the concrete envelope. -/
theorem c6_page_item_counts_witness :
    ((1:Int) ≤ 3 ∧ (1:Int) ≤ 10
      ∧ (3:Int) ≤ (pyCeil (dbN 25).rows.length (10:Int).toNat : Int))
    ∧ ((3:Int) = (pyCeil (dbN 25).rows.length (10:Int).toNat : Int) →
        ((Paginator.init (dbN 25)).paginate 3 10).1.items.length
          = (dbN 25).rows.length - ((3:Int).toNat - 1) * (10:Int).toNat)
    ∧ ApiResponse.paginate (dbN 25) 3 10 none =
        (Except.ok envLastOf25, [StoreQuery.countQ, StoreQuery.pageQ 20 10])
    ∧ envLastOf25.items.length
        = (dbN 25).rows.length - ((3:Int).toNat - 1) * (10:Int).toNat :=
  ⟨⟨by decide, by decide, by decide⟩,
   (c6_page_item_counts (dbN 25) 3 10 (by decide) (by decide) (by decide)).1.2,
   rfl,
   ((c6_page_item_counts (dbN 25) 3 10 (by decide) (by decide)
      (by decide)).2 envLastOf25
      [StoreQuery.countQ, StoreQuery.pageQ 20 10] rfl).2 (by decide)⟩

/-! ### Claim C7 -/

/-- Counterexample to C7: the claim says every single `paginate()`
invocation issues exactly one count query, but the second invocation on
the same `Paginator` instance issues only the page query — the cached
total suppresses the count query. -/
theorem c7_count_query_counterexample :
    ((((Paginator.init (dbN 25)).paginate 1 10).1).paginate 2 10).2
      = [StoreQuery.pageQ 10 10]
    ∧ StoreQuery.countQ ∉
        ((((Paginator.init (dbN 25)).paginate 1 10).1).paginate 2 10).2 := by
  decide

/-- C7 as amended: the *first* `paginate()` call on a fresh `Paginator`
issues exactly one count query followed by exactly one page query, in that
order; any later call on the same instance issues only the page query; and
`ApiResponse.paginate`, whenever it returns successfully, issued exactly
one count query followed by one page query. -/
theorem c7_query_order_amended (db : Db) (page pp page2 pp2 : Int) :
    ((Paginator.init db).paginate page pp).2
      = [StoreQuery.countQ,
         StoreQuery.pageQ (((max 1 page).toNat - 1) * (max 1 pp).toNat)
           (max 1 pp).toNat]
    ∧ ((((Paginator.init db).paginate page pp).1).paginate page2 pp2).2
      = [StoreQuery.pageQ (((max 1 page2).toNat - 1) * (max 1 pp2).toNat)
           (max 1 pp2).toNat]
    ∧ (∀ env : Envelope,
        (ApiResponse.paginate db page pp none).1 = Except.ok env →
        (ApiResponse.paginate db page pp none).2
          = [StoreQuery.countQ,
             StoreQuery.pageQ ((page.toNat - 1) * pp.toNat) pp.toNat]) := by
  refine ⟨by simp [paginate_eq, Paginator.init],
    by simp [paginate_eq, Paginator.init], ?_⟩
  intro env h
  simp only [ApiResponse.paginate, Db.countValue] at h ⊢
  split_ifs at h ⊢ with h1 h2 h3
  · rfl
  · rfl

/-- Witness for `c7_query_order_amended`: the success hypothesis of the
`ApiResponse` conjunct is discharged on the concrete first page of 25
rows. -/
theorem c7_query_order_amended_witness :
    (ApiResponse.paginate (dbN 25) 1 10 none).1 = Except.ok envFirstOf25
    ∧ (ApiResponse.paginate (dbN 25) 1 10 none).2
        = [StoreQuery.countQ, StoreQuery.pageQ 0 10] :=
  ⟨rfl, (c7_query_order_amended (dbN 25) 1 10 2 10).2.2 envFirstOf25 rfl⟩

/-! ### Claim C8 -/

/-- C8: the mapper installed by `Paginator.map` produces an output list of
the same length and order as its input, and never raises on a per-item
validation failure — when `model_validate` fails for an item, the item is
still included, built along the unchecked `model_construct` path. -/
theorem c8_map_length_order {M : Type} (model : PyModel M)
    (items : List Entity) :
    mapMapper model items = items.map (mapRow model)
    ∧ (mapMapper model items).length = items.length
    ∧ ∀ item : Entity,
        model.model_validate (buildItemDict model item) = none →
        mapRow model item = model.model_construct (buildItemDict model item) := by
  have hfold : ∀ (l : List Entity) (acc : List M),
      l.foldl (fun acc it => acc ++ [mapRow model it]) acc
        = acc ++ l.map (mapRow model) := by
    intro l
    induction l with
    | nil => intro acc; simp
    | cons x xs ih => intro acc; simp [ih]
  have hm : mapMapper model items = items.map (mapRow model) := by
    simpa [mapMapper] using hfold items []
  refine ⟨hm, by simp [hm], ?_⟩
  intro item h
  unfold mapRow
  rw [h]

/-- A model whose strict validation always fails, to exercise the fallback
construction path. -/
def modelC8 : PyModel Nat :=
  { annots := [], model_validate := fun _ => none,
    model_construct := fun d => d.length }

/-- Witness for `c8_map_length_order`: on a model whose validation fails,
the item is mapped through `model_construct`. -/
theorem c8_map_length_order_witness :
    modelC8.model_validate (buildItemDict modelC8 (entN 3)) = none
    ∧ mapRow modelC8 (entN 3)
        = modelC8.model_construct (buildItemDict modelC8 (entN 3)) :=
  ⟨rfl, (c8_map_length_order modelC8 [entN 3]).2.2 (entN 3) rfl⟩

/-! ### Claim C9 -/

lemma foldl_process (p : Paginator) (fs : List (List Entity → List Entity)) :
    fs.foldl (fun q f => q.process f) p
      = { p with processors := p.processors ++ fs } := by
  induction fs generalizing p with
  | nil => simp
  | cons f fs ih =>
      rw [List.foldl_cons, ih]
      simp [Paginator.process, List.append_assoc]

lemma applyProcessors_eq_foldr (ps : List (List Entity → List Entity))
    (xs : List Entity) :
    applyProcessors ps xs = (ps.foldr (fun f acc => acc ∘ f) id) xs := by
  induction ps generalizing xs with
  | nil => rfl
  | cons f ps ih =>
      show applyProcessors ps (f xs) = _
      rw [ih]
      rfl

/-- C9: processors registered through `process()` before a `paginate()`
call are applied to the fetched item list in registration order, each
replacing the list — so the final items equal the right-to-left
composition of the processors applied to the items an otherwise identical
processor-free call produces. -/
theorem c9_processors_in_order (db : Db)
    (fs : List (List Entity → List Entity)) (page pp : Int) :
    ((fs.foldl (fun q f => q.process f) (Paginator.init db)).paginate
        page pp).1.items
      = (fs.foldr (fun f acc => acc ∘ f) id)
          (((Paginator.init db).paginate page pp).1.items) := by
  rw [foldl_process]
  rw [paginate_eq, paginate_eq]
  simp only [Paginator.items, Option.getD_some, Paginator.init,
    List.nil_append]
  rw [applyProcessors_eq_foldr]
  rfl

/-! ### Claim C10 -/

/-- C10: over an unchanged single-column data set, for a valid page
(`1 ≤ page ≤ last_page`, or `last_page = 0` with `page = 1`), with no
processors and no transform function, `ApiResponse.paginate` succeeds and
its envelope is exactly the fresh `Paginator.paginate` envelope — the six
fields `items`, `total`, `per_page`, `current_page`, `last_page`,
`has_more` all agree. -/
theorem c10_paginator_api_agree (db : Db) (page pp : Int)
    (hkeys : db.keys.length = 1) (hpage : 1 ≤ page) (hpp : 1 ≤ pp)
    (hle : page ≤ (pyCeil db.rows.length pp.toNat : Int)
            ∨ (pyCeil db.rows.length pp.toNat = 0 ∧ page = 1)) :
    ApiResponse.paginate db page pp none =
      (Except.ok (((Paginator.init db).paginate page pp).1.to_dict),
       [StoreQuery.countQ,
        StoreQuery.pageQ ((page.toNat - 1) * pp.toNat) pp.toNat]) := by
  have hppN : (max 1 pp).toNat = pp.toNat := by rw [max_eq_right hpp]
  have hpgN : (max 1 page).toNat = page.toNat := by rw [max_eq_right hpage]
  rw [paginate_eq]
  simp only [ApiResponse.paginate, Db.countValue, Paginator.to_dict,
    Paginator.items, Paginator.total, Paginator.per_page,
    Paginator.current_page, Paginator.last_page, Paginator.has_more,
    Paginator.init, applyProcessors, List.foldl_nil, Option.getD_some,
    Option.getD_none, eq_self_iff_true, if_true, hppN, hpgN, hkeys]
  rw [if_neg (show ¬(page < 1 ∨ pp < 1) by omega),
    if_pos (show (0:Int) < pp by omega),
    if_neg (show ¬((pyCeil db.rows.length pp.toNat : Int) < page
        ∧ 0 < pyCeil db.rows.length pp.toNat) by omega)]
  have hhm : decide (page < (pyCeil db.rows.length pp.toNat : Int))
      = decide (page.toNat < pyCeil db.rows.length pp.toNat) :=
    decide_eq_decide.mpr (by omega)
  rw [hhm]

/-- Witness for `c10_paginator_api_agree`: 25 single-column rows, page 1,
10 per page. -/
theorem c10_paginator_api_agree_witness :
    ((dbN 25).keys.length = 1 ∧ (1:Int) ≤ 1 ∧ (1:Int) ≤ 10
      ∧ ((1:Int) ≤ (pyCeil (dbN 25).rows.length (10:Int).toNat : Int)
          ∨ (pyCeil (dbN 25).rows.length (10:Int).toNat = 0 ∧ (1:Int) = 1)))
    ∧ ApiResponse.paginate (dbN 25) 1 10 none =
        (Except.ok (((Paginator.init (dbN 25)).paginate 1 10).1.to_dict),
         [StoreQuery.countQ, StoreQuery.pageQ 0 10]) :=
  ⟨⟨by decide, by decide, by decide, Or.inl (by decide)⟩,
   c10_paginator_api_agree (dbN 25) 1 10 (by decide) (by decide) (by decide)
     (Or.inl (by decide))⟩
